import Mathlib

/-!
Verification of the TransactiTrack data-access and aggregation layers.

The relational store (tables `users` and `transactions`, from
src/app/models.py and the alembic migration) is embedded as lists of rows
kept in insertion order, together with the autoincrement counters and the
server clock used for `func.now()` defaults.  The data-access operations of
src/app/crud.py become functions on this state; a backend failure raised by
the store during an operation (connection loss, constraint violation
detected at commit) is passed in as an explicit `Option StoreError` oracle,
and an operation that lets a raised error propagate to its caller returns
`Except.error`.  The HTTP handlers of src/app/main.py and src/app/admin.py
that the claims mention are embedded on top of the data-access functions.
-/

namespace TransactiTrack

/-- A row of the `users` table: integer primary key and unique username
(src/app/models.py, class User). -/
structure UserRow where
  id : Nat
  username : String
  deriving DecidableEq, Repr

/-- A row of the `transactions` table: integer primary key, foreign key
`user_id` to users.id, free-form `type` label, float `amount` (embedded as a
rational) and the creation `timestamp` (src/app/models.py, class
Transaction).  Timestamps are abstracted to naturals. -/
structure TxnRow where
  id : Nat
  user_id : Nat
  type : String
  amount : Rat
  timestamp : Nat
  deriving DecidableEq, Repr

/-- The state of the relational store: both tables in insertion order, the
autoincrement counters, and the clock value the store uses for the
server-side `timestamp` default. -/
structure DB where
  users : List UserRow
  txns : List TxnRow
  nextUserId : Nat
  nextTxnId : Nat
  now : Nat
  deriving DecidableEq, Repr

/-- Store-level well-formedness: primary keys of `users` are unique, the
unique index on `username` holds, and the foreign-key constraint of
`transactions.user_id` (nullable=False, ForeignKey("users.id") in the
migration) holds. -/
def WF (db : DB) : Prop :=
  (db.users.map UserRow.id).Nodup ∧
  (db.users.map UserRow.username).Nodup ∧
  ∀ t ∈ db.txns, ∃ u ∈ db.users, u.id = t.user_id

instance (db : DB) : Decidable (WF db) := by
  unfold WF
  infer_instance

/-- The kinds of store-level failures of the spec's error taxonomy that are
raised as exceptions.  A unique-constraint violation (`ConflictError`) and a
foreign-key failure (`IntegrityViolation`) both surface as SQLAlchemy
`IntegrityError`; a connection or backend failure is `TransientStoreError`.
`NotFound` is not an exception: the code represents it as `None`. -/
inductive StoreError where
  | conflictError
  | integrityViolation
  | transientStoreError
  deriving DecidableEq, Repr

/-- A user together with its eagerly loaded transaction collection, as
produced by `selectinload(models.User.transactions)`. -/
structure UserWithTxns where
  id : Nat
  username : String
  transactions : List TxnRow
  deriving DecidableEq, Repr

/-- The eager load of a user's transaction collection: the rows of
`transactions` whose `user_id` matches, in table (insertion) order. -/
def loadUser (db : DB) (u : UserRow) : UserWithTxns :=
  ⟨u.id, u.username, db.txns.filter (fun t => t.user_id == u.id)⟩

/-- crud.create_user: inserts a new `users` row and commits.  The unique
index on `username` makes the commit raise `IntegrityError` when the
username already exists; the function's except clause re-raises every
exception.  On success it returns the new user's id (schemas.UserId). -/
def create_user (db : DB) (username : String) (err : Option StoreError) :
    Except StoreError (DB × Nat) :=
  match err with
  | some e => .error e
  | none =>
    if db.users.any (fun u => u.username == username) then
      .error .conflictError
    else
      .ok ({ db with
              users := db.users ++ [⟨db.nextUserId, username⟩],
              nextUserId := db.nextUserId + 1 },
           db.nextUserId)

/-- crud.get_user: selects the user by id with transactions eagerly loaded;
returns `none` when no row matches; re-raises store errors. -/
def get_user (db : DB) (user_id : Nat) (err : Option StoreError) :
    Except StoreError (Option UserWithTxns) :=
  match err with
  | some e => .error e
  | none =>
    match db.users.find? (fun u => u.id == user_id) with
    | some u => .ok (some (loadUser db u))
    | none => .ok none

/-- crud.get_all_users: selects every user with transactions eagerly
loaded, materialized in table (insertion) order; re-raises store errors. -/
def get_all_users (db : DB) (err : Option StoreError) :
    Except StoreError (List UserWithTxns) :=
  match err with
  | some e => .error e
  | none => .ok (db.users.map (loadUser db))

/-- crud.add_transaction: inserts a `transactions` row and commits.  The
id is autoassigned and the timestamp takes the server default `func.now()`.
The foreign-key constraint makes the commit raise `IntegrityError` when
`user_id` matches no user; the except clause re-raises every exception. -/
def add_transaction (db : DB) (user_id : Nat) (type : String) (amount : Rat)
    (err : Option StoreError) : Except StoreError (DB × TxnRow) :=
  match err with
  | some e => .error e
  | none =>
    if db.users.any (fun u => u.id == user_id) then
      let t : TxnRow := ⟨db.nextTxnId, user_id, type, amount, db.now⟩
      .ok ({ db with txns := db.txns ++ [t], nextTxnId := db.nextTxnId + 1 }, t)
    else
      .error .integrityViolation

/-- The store after crud.update_user's Core UPDATE statement: every `users`
row whose id matches gets the new username; nothing else changes. -/
def updatedDB (db : DB) (user_id : Nat) (username : String) : DB :=
  { db with
      users := db.users.map (fun v =>
        if v.id == user_id then { v with username := username } else v) }

/-- crud.update_user: selects the user by id; when absent returns `None`
without writing.  When present it executes a Core
`User.__table__.update()` against the store and commits, then returns the
ORM object it loaded BEFORE the update.  A Core table update performs no
ORM synchronisation, and the session factory (src/app/database.py) sets
`expire_on_commit=False`, so the returned object keeps the attribute values
it was loaded with: its `username` is the pre-update one.  Store errors are
re-raised. -/
def update_user (db : DB) (user_id : Nat) (username : String)
    (err : Option StoreError) : Except StoreError (DB × Option UserRow) :=
  match err with
  | some e => .error e
  | none =>
    match db.users.find? (fun u => u.id == user_id) with
    | some u => .ok (updatedDB db user_id username, some u)
    | none => .ok (db, none)

/-- crud.delete_user: inside one store transaction (`async with
db.begin()`), deletes every `transactions` row with the given `user_id`,
then deletes the matching `users` row, and commits; it returns the user
delete's rowcount.  Both its `except IntegrityError` clause and its
`except Exception` clause roll the transaction back and return 0, so no
exception of any kind propagates and a failed run leaves the store
unchanged. -/
def delete_user (db : DB) (user_id : Nat) (err : Option StoreError) :
    DB × Nat :=
  match err with
  | some _ => (db, 0)
  | none =>
    (⟨db.users.filter (fun u => !(u.id == user_id)),
      db.txns.filter (fun t => !(t.user_id == user_id)),
      db.nextUserId, db.nextTxnId, db.now⟩,
     (db.users.filter (fun u => u.id == user_id)).length)

/-- An exception live inside a request handler: either a store error that
escaped the data-access layer, or a raised `HTTPException` with a status
code and a detail string. -/
inductive Exn where
  | store (e : StoreError)
  | http (status_code : Nat) (detail : String)
  deriving DecidableEq, Repr

/-- main.get_user endpoint (GET /users/\x7buser_id\x7d): inside its try
block it calls crud.get_user and raises `HTTPException(404, "User not
found")` when the result is `None`; its `except Exception` clause catches
every exception — the 404 `HTTPException` included, since `HTTPException`
subclasses `Exception` — and raises `HTTPException(500, "Error fetching
user")` instead. -/
def get_user_route (db : DB) (user_id : Nat) (err : Option StoreError) :
    Except Exn UserWithTxns :=
  let tryBlock : Except Exn UserWithTxns :=
    match get_user db user_id err with
    | .error e => .error (.store e)
    | .ok none => .error (.http 404 "User not found")
    | .ok (some u) => .ok u
  match tryBlock with
  | .ok u => .ok u
  | .error _ => .error (.http 500 "Error fetching user")

/-- The dashboard view-model assembled by admin.admin_dashboard: the
per-user data rows (id, username, transaction_count), the two totals, and
the two parallel chart lists built from the flattened comprehensions
`[t.timestamp for user in users for t in user.transactions]` and
`[t.amount for user in users for t in user.transactions]`. -/
structure Dashboard where
  users_data : List (Nat × String × Nat)
  total_transactions : Nat
  total_amount : Rat
  chart_dates : List Nat
  chart_amounts : List Rat
  deriving DecidableEq, Repr

/-- The pure aggregation of admin.admin_dashboard over the result of
crud.get_all_users, translated comprehension by comprehension. -/
def admin_dashboard (users : List UserWithTxns) : Dashboard :=
  { users_data := users.map (fun u => (u.id, u.username, u.transactions.length)),
    total_transactions := (users.map (fun u => u.transactions.length)).sum,
    total_amount :=
      (users.map (fun u => (u.transactions.map TxnRow.amount).sum)).sum,
    chart_dates := users.flatMap (fun u => u.transactions.map TxnRow.timestamp),
    chart_amounts := users.flatMap (fun u => u.transactions.map TxnRow.amount) }

/-- admin.admin_dashboard endpoint (GET /admin/): fetches all users, then
renders the aggregation.  It has no try/except, so a store error raised by
crud.get_all_users propagates; the store state is returned unchanged — the
handler only reads. -/
def admin_dashboard_route (db : DB) (err : Option StoreError) :
    Except Exn (Dashboard × DB) :=
  match get_all_users db err with
  | .error e => .error (.store e)
  | .ok users => .ok (admin_dashboard users, db)

/-- The field names declared by the pydantic model `schemas.Transaction`
(src/app/schemas.py): `type` and `amount` inherited from
`TransactionBase`, plus `id` and `timestamp`.  There is no `user_id`
field. -/
def transactionSchemaFields : List String := ["type", "amount", "id", "timestamp"]

/-- A validated instance of `schemas.Transaction`: exactly the declared
fields. -/
structure TransactionSchema where
  type : String
  amount : Rat
  id : Nat
  timestamp : Nat
  deriving DecidableEq, Repr

/-- A JSON body sent to POST /transactions/, as the optional presence of
each field the spec or the schema mentions. -/
structure RequestBody where
  user_id : Option Nat := none
  type : Option String := none
  amount : Option Rat := none
  id : Option Nat := none
  timestamp : Option Nat := none
  deriving DecidableEq, Repr

/-- FastAPI's validation of the request body against `schemas.Transaction`:
all four declared fields are required (none has a default), extra fields
such as `user_id` are ignored, and a missing required field rejects the
request with a 422 response before the handler runs. -/
def validate_transaction_body (b : RequestBody) : Option TransactionSchema :=
  match b.type, b.amount, b.id, b.timestamp with
  | some ty, some am, some i, some ts => some ⟨ty, am, i, ts⟩
  | _, _, _, _ => none

/-- main.add_transaction endpoint (POST /transactions/): FastAPI first
validates the body against `schemas.Transaction`; a body without the
required `id` and `timestamp` fields is rejected with 422.  When
validation succeeds the handler evaluates `transaction.user_id`, but
`schemas.Transaction` declares no `user_id` field, so the pydantic
attribute access raises `AttributeError`; the handler's `except Exception`
clause converts it into `HTTPException(500, "Error adding transaction")`.
crud.add_transaction is therefore never reached. -/
def add_transaction_route (db : DB) (body : RequestBody) :
    Except Exn (DB × TxnRow) :=
  match validate_transaction_body body with
  | none => .error (.http 422 "field required: id, timestamp")
  | some _ => .error (.http 500 "Error adding transaction")

/-! Concrete store states used to instantiate the theorems. -/

/-- The empty store, as after the migration. -/
def db0 : DB := ⟨[], [], 1, 1, 0⟩

/-- A store holding one user "alice" and no transactions. -/
def dbAlice : DB := ⟨[⟨1, "alice"⟩], [], 2, 1, 0⟩

/-- A store holding one user "carol" with a credit of 50 and a debit of 20,
as in the spec's scenario. -/
def dbCarol : DB :=
  ⟨[⟨1, "carol"⟩], [⟨1, 1, "credit", 50, 5⟩, ⟨2, 1, "debit", 20, 6⟩], 2, 3, 7⟩

/-- The eagerly loaded `ListUsers()` result for `dbCarol`. -/
def carolUsers : List UserWithTxns :=
  [⟨1, "carol", [⟨1, 1, "credit", 50, 5⟩, ⟨2, 1, "debit", 20, 6⟩]⟩]

/-! Helper lemmas. -/

/-- With unique primary keys, at most one `users` row matches an id. -/
lemma length_filter_id_le_one (users : List UserRow) (uid : Nat)
    (h : (users.map UserRow.id).Nodup) :
    (users.filter (fun u => u.id == uid)).length ≤ 1 := by
  induction users with
  | nil => simp
  | cons u us ih =>
    simp only [List.map_cons, List.nodup_cons] at h
    by_cases hu : u.id = uid
    · have hnil : us.filter (fun v => v.id == uid) = [] := by
        rw [List.filter_eq_nil_iff]
        intro v hv hbeq
        have hvid : v.id = uid := by simpa using hbeq
        exact h.1 (List.mem_map.mpr ⟨v, hv, by rw [hvid, hu]⟩)
      rw [List.filter_cons_of_pos (by simpa using hu), hnil]
      simp
    · rw [List.filter_cons_of_neg (by simpa using hu)]
      exact ih h.2

/-- The two parallel chart lists of the dashboard, zipped, give exactly the
flattened (timestamp, amount) pairs in user-major, transaction-minor
order. -/
lemma chart_zip (users : List UserWithTxns) :
    (users.flatMap (fun u => u.transactions.map TxnRow.timestamp)).zip
      (users.flatMap (fun u => u.transactions.map TxnRow.amount)) =
    users.flatMap (fun u => u.transactions.map (fun t => (t.timestamp, t.amount))) := by
  induction users with
  | nil => rfl
  | cons u us ih =>
    simp only [List.flatMap_cons]
    rw [List.zip_append (by simp), List.zip_map', ih]

/-! The claims. -/

/-- C3: for every username u free in the store, CreateUser(u) succeeds and a
second CreateUser(u) fails with the distinguishable unique-constraint
conflict (IntegrityError re-raised by crud.create_user, not a generic
failure), after which the store holds exactly one row with username u. -/
theorem c3_create_user_conflict (db : DB) (u : String)
    (h : ∀ v ∈ db.users, v.username ≠ u) :
    ∃ db1 id1, create_user db u none = .ok (db1, id1) ∧
      create_user db1 u none = .error .conflictError ∧
      (db1.users.filter (fun v => v.username == u)).length = 1 := by
  have hnil : db.users.filter (fun v => v.username == u) = [] := by
    rw [List.filter_eq_nil_iff]
    intro v hv hbeq
    exact h v hv (by simpa using hbeq)
  have hany : db.users.any (fun v => v.username == u) = false := by
    rw [List.any_eq_false]
    intro v hv hbeq
    exact h v hv (by simpa using hbeq)
  refine ⟨{ db with
              users := db.users ++ [⟨db.nextUserId, u⟩],
              nextUserId := db.nextUserId + 1 },
          db.nextUserId, ?_, ?_, ?_⟩
  · unfold create_user
    simp [hany]
  · unfold create_user
    simp [List.any_append]
  · simp [List.filter_append, hnil]

/-- C3 witness: "alice" created twice in the empty store. -/
theorem c3_create_user_conflict_witness :
    (∀ v ∈ db0.users, v.username ≠ "alice") ∧
    ∃ db1 id1, create_user db0 "alice" none = .ok (db1, id1) ∧
      create_user db1 "alice" none = .error .conflictError ∧
      (db1.users.filter (fun v => v.username == "alice")).length = 1 :=
  ⟨by decide, c3_create_user_conflict db0 "alice" (by decide)⟩

/-- C6: DeleteUser on an id matching no user returns a count of 0 and
leaves every row of both tables (and the rest of the store state)
unchanged. -/
theorem c6_delete_user_absent (db : DB) (uid : Nat) (hwf : WF db)
    (h : ∀ u ∈ db.users, u.id ≠ uid) :
    delete_user db uid none = (db, 0) := by
  obtain ⟨users, txns, nu, nt, clock⟩ := db
  have husers : users.filter (fun u => !(u.id == uid)) = users := by
    rw [List.filter_eq_self]
    intro u hu
    simpa using h u hu
  have htxns : txns.filter (fun t => !(t.user_id == uid)) = txns := by
    rw [List.filter_eq_self]
    intro t ht
    obtain ⟨u, hu, hid⟩ := hwf.2.2 t ht
    have : t.user_id ≠ uid := by rw [← hid]; exact h u hu
    simpa using this
  have hzero : users.filter (fun u => u.id == uid) = [] := by
    rw [List.filter_eq_nil_iff]
    intro u hu hbeq
    exact h u hu (by simpa using hbeq)
  unfold delete_user
  simp [husers, htxns, hzero]

/-- C6 witness: deleting id 2, absent from the carol store. -/
theorem c6_delete_user_absent_witness :
    WF dbCarol ∧ (∀ u ∈ dbCarol.users, u.id ≠ 2) ∧
    delete_user dbCarol 2 none = (dbCarol, 0) :=
  ⟨by decide, by decide, c6_delete_user_absent dbCarol 2 (by decide) (by decide)⟩

/-- C7: ListUsers materializes the users in table (insertion) order — the
ids come out exactly in the order of the `users` table — and each user's
eagerly loaded transaction collection is a subsequence of the
`transactions` table, hence also in insertion order (oldest first). -/
theorem c7_list_users_insertion_order (db : DB) :
    get_all_users db none = .ok (db.users.map (loadUser db)) ∧
    (db.users.map (loadUser db)).map UserWithTxns.id = db.users.map UserRow.id ∧
    ∀ u ∈ db.users.map (loadUser db), u.transactions.Sublist db.txns := by
  refine ⟨rfl, ?_, ?_⟩
  · rw [List.map_map]
    rfl
  · intro u hu
    obtain ⟨v, _, rfl⟩ := List.mem_map.mp hu
    exact List.filter_sublist db.txns

/-- C7 witness: the carol store listed in order. -/
theorem c7_list_users_insertion_order_witness :
    get_all_users dbCarol none = .ok (dbCarol.users.map (loadUser dbCarol)) ∧
    (dbCarol.users.map (loadUser dbCarol)).map UserWithTxns.id =
      dbCarol.users.map UserRow.id :=
  ⟨(c7_list_users_insertion_order dbCarol).1,
   (c7_list_users_insertion_order dbCarol).2.1⟩

/-- C8 counterexample: delete_user converts a TransientStoreError — and a
ConflictError — into the recoverable (unchanged store, 0 rows) outcome
instead of propagating it, because its `except Exception` clause catches
every exception, so IntegrityViolation is not the only converted kind. -/
theorem c8_counterexample :
    delete_user db0 1 (some .transientStoreError) = (db0, 0) ∧
    delete_user db0 1 (some .conflictError) = (db0, 0) :=
  ⟨rfl, rfl⟩

/-- C8 amended: every data-access operation propagates every raised store
error to its caller, except DeleteUser, which converts EVERY raised error
kind — not only IntegrityViolation — into the recoverable zero-rows
outcome with the store left unchanged. -/
theorem c8_error_propagation_amended :
    ∀ (db : DB) (e : StoreError) (uname ty : String) (uid : Nat) (am : Rat),
      create_user db uname (some e) = .error e ∧
      get_user db uid (some e) = .error e ∧
      get_all_users db (some e) = .error e ∧
      add_transaction db uid ty am (some e) = .error e ∧
      update_user db uid uname (some e) = .error e ∧
      delete_user db uid (some e) = (db, 0) :=
  fun _ _ _ _ _ _ => ⟨rfl, rfl, rfl, rfl, rfl, rfl⟩

/-- C1: DeleteUser is atomic — either the transaction rows with the given
user_id and the matching user row are all removed (and the returned count
is the number of user rows removed), or nothing changes and the count is 0;
with unique primary keys the count is 0 or 1; in particular a constraint
violation raised by the store rolls the whole operation back and reports
0 removed. -/
theorem c1_delete_user_atomic (db : DB) (uid : Nat) (err : Option StoreError)
    (hwf : WF db) :
    (((delete_user db uid err).1.users =
        db.users.filter (fun u => !(u.id == uid)) ∧
      (delete_user db uid err).1.txns =
        db.txns.filter (fun t => !(t.user_id == uid)) ∧
      (delete_user db uid err).2 =
        (db.users.filter (fun u => u.id == uid)).length) ∨
     ((delete_user db uid err).1 = db ∧ (delete_user db uid err).2 = 0)) ∧
    (delete_user db uid err).2 ≤ 1 ∧
    (err = some .integrityViolation → delete_user db uid err = (db, 0)) := by
  cases err with
  | some e =>
    exact ⟨Or.inr ⟨rfl, rfl⟩, Nat.zero_le 1, fun _ => rfl⟩
  | none =>
    refine ⟨Or.inl ⟨rfl, rfl, rfl⟩, ?_, fun hc => Option.noConfusion hc⟩
    exact length_filter_id_le_one db.users uid hwf.1

/-- C1 witness: deleting carol removes her row and both transactions in one
step, reporting 1 row removed. -/
theorem c1_delete_user_atomic_witness :
    WF dbCarol ∧
    (delete_user dbCarol 1 none).2 ≤ 1 ∧
    delete_user dbCarol 1 none = (⟨[], [], 2, 3, 7⟩, 1) ∧
    delete_user dbCarol 1 (some .integrityViolation) = (dbCarol, 0) :=
  ⟨by decide,
   (c1_delete_user_atomic dbCarol 1 none (by decide)).2.1,
   by decide,
   (c1_delete_user_atomic dbCarol 1 (some .integrityViolation)
      (by decide)).2.2 rfl⟩

/-- C2: the dashboard aggregate computes total_transactions as the sum of
the per-user collection lengths, total_amount as the unsigned sum of all
amounts, and its two chart lists zip to the (timestamp, amount) pairs in
user-major, transaction-minor order; on the carol scenario (one credit of
50, one debit of 20) it yields 2 transactions and a total of 70. -/
theorem c2_dashboard_aggregate :
    (∀ users : List UserWithTxns,
      (admin_dashboard users).total_transactions =
        (users.map (fun u => u.transactions.length)).sum ∧
      (admin_dashboard users).total_amount =
        (users.map (fun u => (u.transactions.map TxnRow.amount).sum)).sum ∧
      (admin_dashboard users).chart_dates.zip (admin_dashboard users).chart_amounts =
        users.flatMap (fun u => u.transactions.map (fun t => (t.timestamp, t.amount)))) ∧
    (admin_dashboard carolUsers).total_transactions = 2 ∧
    (admin_dashboard carolUsers).total_amount = 70 ∧
    (admin_dashboard carolUsers).users_data = [(1, "carol", 2)] ∧
    (admin_dashboard carolUsers).chart_dates.zip
        (admin_dashboard carolUsers).chart_amounts = [(5, 50), (6, 20)] := by
  refine ⟨fun users => ⟨rfl, rfl, chart_zip users⟩, rfl, ?_, rfl, rfl⟩
  show ((50 : Rat) + (20 + 0)) + 0 = 70
  norm_num

/-- C4 counterexample: updating user 1 from "alice" to "bob" does update
the stored row, but the returned object is the one loaded before the
update — its username field is still "alice", not the new username. -/
theorem c4_counterexample :
    update_user dbAlice 1 "bob" none =
      .ok (⟨[⟨1, "bob"⟩], [], 2, 1, 0⟩, some ⟨1, "alice"⟩) ∧
    ("alice" : String) ≠ "bob" :=
  ⟨rfl, by decide⟩

/-- C4 amended: on an absent id UpdateUsername returns NotFound (None) and
creates no record; on a present id it updates the stored row — every row
with that id now carries the new username, the id column and the
transactions table are untouched — but it returns the PRE-update snapshot
of the user, whose username field still holds the old value. -/
theorem c4_update_user_amended (db : DB) (uid : Nat) (newName : String) :
    ((∀ u ∈ db.users, u.id ≠ uid) →
      update_user db uid newName none = .ok (db, none)) ∧
    (∀ u₀, db.users.find? (fun u => u.id == uid) = some u₀ →
      update_user db uid newName none =
        .ok (updatedDB db uid newName, some u₀) ∧
      u₀ ∈ db.users ∧ u₀.id = uid ∧
      (updatedDB db uid newName).txns = db.txns ∧
      (updatedDB db uid newName).users.map UserRow.id = db.users.map UserRow.id ∧
      ∀ v ∈ (updatedDB db uid newName).users, v.id = uid →
        v.username = newName) := by
  constructor
  · intro h
    have hnone : db.users.find? (fun u => u.id == uid) = none := by
      rw [List.find?_eq_none]
      intro u hu hbeq
      exact h u hu (by simpa using hbeq)
    unfold update_user
    rw [hnone]
  · intro u₀ hfind
    have hmem : u₀ ∈ db.users := List.mem_of_find?_eq_some hfind
    have hid : u₀.id = uid := by simpa using List.find?_some hfind
    refine ⟨by unfold update_user; rw [hfind], hmem, hid, rfl, ?_, ?_⟩
    · unfold updatedDB
      rw [List.map_map]
      apply List.map_congr_left
      intro a _
      by_cases ha : a.id = uid
      · simp [ha]
      · simp [ha]
    · intro v hv hvid
      unfold updatedDB at hv
      simp only [List.mem_map] at hv
      obtain ⟨w, hw, rfl⟩ := hv
      by_cases hwid : w.id = uid
      · simp [hwid]
      · rw [if_neg (by simpa using hwid)] at hvid ⊢
        exact absurd hvid hwid

/-- C4 witness: the amended statement at the alice store. -/
theorem c4_update_user_amended_witness :
    dbAlice.users.find? (fun u => u.id == 1) = some ⟨1, "alice"⟩ ∧
    update_user dbAlice 1 "bob" none =
      .ok (updatedDB dbAlice 1 "bob", some ⟨1, "alice"⟩) ∧
    (updatedDB dbAlice 1 "bob").txns = dbAlice.txns :=
  ⟨rfl,
   ((c4_update_user_amended dbAlice 1 "bob").2 ⟨1, "alice"⟩ rfl).1,
   ((c4_update_user_amended dbAlice 1 "bob").2 ⟨1, "alice"⟩ rfl).2.2.2.1⟩

/-- The body of the spec's example request to POST /transactions/:
user_id, type and amount only. -/
def specBody : RequestBody :=
  { user_id := some 1, type := some "credit", amount := some 50 }

/-- A body that additionally supplies the id and timestamp fields that
`schemas.Transaction` requires. -/
def fullBody : RequestBody :=
  { user_id := some 1, type := some "credit", amount := some 50,
    id := some 1, timestamp := some 5 }

/-- C5: POST /transactions/ can never create a transaction.  The declared
body model `schemas.Transaction` has no user_id field, so the spec's body
(user_id, type, amount) is rejected with 422 because the model's required
id and timestamp fields are missing, and even a body supplying them makes
the handler fail with 500 when it evaluates `transaction.user_id`
(AttributeError caught by its except clause): every request ends in an
error response. -/
theorem c5_add_transaction_route_bug :
    transactionSchemaFields.contains "user_id" = false ∧
    add_transaction_route db0 specBody =
      .error (.http 422 "field required: id, timestamp") ∧
    add_transaction_route db0 fullBody =
      .error (.http 500 "Error adding transaction") ∧
    ∀ (db : DB) (body : RequestBody),
      ∃ e, add_transaction_route db body = .error e := by
  refine ⟨rfl, rfl, rfl, fun db body => ?_⟩
  unfold add_transaction_route
  cases hv : validate_transaction_body body with
  | none => exact ⟨.http 422 "field required: id, timestamp", rfl⟩
  | some t => exact ⟨.http 500 "Error adding transaction", rfl⟩

/-- C9: the dashboard endpoint is a pure read — it returns the store
unchanged, and its view-model is determined solely by the ListUsers
result: equal ListUsers results give equal dashboards. -/
theorem c9_dashboard_pure (db1 db2 : DB) (us1 us2 : List UserWithTxns)
    (h1 : get_all_users db1 none = .ok us1)
    (h2 : get_all_users db2 none = .ok us2)
    (h12 : us1 = us2) :
    admin_dashboard_route db1 none = .ok (admin_dashboard us1, db1) ∧
    admin_dashboard_route db2 none = .ok (admin_dashboard us2, db2) ∧
    admin_dashboard us1 = admin_dashboard us2 := by
  subst h12
  refine ⟨?_, ?_, rfl⟩
  · unfold admin_dashboard_route
    rw [h1]
  · unfold admin_dashboard_route
    rw [h2]

/-- C9 witness: the carol store, read twice. -/
theorem c9_dashboard_pure_witness :
    get_all_users dbCarol none = .ok carolUsers ∧
    admin_dashboard_route dbCarol none =
      .ok (admin_dashboard carolUsers, dbCarol) :=
  ⟨rfl,
   (c9_dashboard_pure dbCarol dbCarol carolUsers carolUsers rfl rfl rfl).1⟩

/-- C10: on an id matching no user, GET /users/\x7bid\x7d responds 500
"Error fetching user": the 404 raised inside the handler's try block is
caught by its own except clause and replaced by the 500. -/
theorem c10_get_user_missing_is_500 (db : DB) (uid : Nat)
    (h : ∀ u ∈ db.users, u.id ≠ uid) :
    get_user_route db uid none = .error (.http 500 "Error fetching user") := by
  have hnone : db.users.find? (fun u => u.id == uid) = none := by
    rw [List.find?_eq_none]
    intro u hu hbeq
    exact h u hu (by simpa using hbeq)
  unfold get_user_route get_user
  rw [hnone]

/-- C10 witness: user 1 is absent from the empty store. -/
theorem c10_get_user_missing_is_500_witness :
    (∀ u ∈ db0.users, u.id ≠ 1) ∧
    get_user_route db0 1 none = .error (.http 500 "Error fetching user") :=
  ⟨by decide, c10_get_user_missing_is_500 db0 1 (by decide)⟩

end TransactiTrack
